import Mathlib

/-!
Shallow embedding of `src/app2.py` (StudyWithMe, an AI-powered study buddy).

The program is a Streamlit page with three features: Explain a Concept,
Summarize Notes (with optional PDF upload) and Generate Quizzes/Flashcards.
Each action-button press is modelled as a pure function from the widget
inputs and the current `st.session_state` to the new session state together
with the observable effects of the press (warnings shown with `st.warning`,
errors shown with `st.error`, and the prompts sent to the generative model
with `model.generate_content`).  The remote model is an oracle
`String → Except String String`: `Except.ok t` stands for a response whose
`.text` is `t`, `Except.error e` for an exception whose message is `e`.
An uploaded PDF is represented by the result of parsing it: either the list
of its pages' extracted texts, or the message of the parse exception.
Python string truthiness (`if s:`) is `s ≠ ""`; the test
`not content.strip()` is modelled by `isBlank` (all characters are
whitespace).  Cosmetic UI output (spinners, captions,
`st.write("Processing PDF...")`, page layout) is not modelled.
-/

/-- The `st.session_state` keys initialised by `app2.py`: per-feature input
and output slots, plus the saved uploaded file for the Summarize feature
(represented by its pages' texts). -/
structure SessionState where
  explain_input : String
  explain_output : String
  summarize_input : String
  summarize_output : String
  uploaded_file : Option (List String)
  quiz_topic_input : String
  quiz_flashcard_output : String
deriving Repr, DecidableEq

/-- Observable effects of one button press: warnings (`st.warning`), errors
(`st.error`) and the prompts sent to the model (`model.generate_content`),
each in the order they happen. -/
structure Effects where
  warnings : List String
  errors : List String
  modelCalls : List String
deriving Repr, DecidableEq

/-- Sequencing of effects of two consecutive program phases. -/
def Effects.comb (a b : Effects) : Effects :=
  ⟨a.warnings ++ b.warnings, a.errors ++ b.errors, a.modelCalls ++ b.modelCalls⟩

/-- The remote generative model: a prompt yields generated text or raises an
exception with a message. -/
abbrev Oracle := String → Except String String

/-- The session state on first render: every slot empty (`app2.py` lines
78-81, 123-128, 213-216). -/
def initialState : SessionState :=
  ⟨"", "", "", "", none, "", ""⟩

/-- `extract_text_from_pdf` (`app2.py` lines 30-35): starting from the empty
string, append each page's extracted text followed by a newline. -/
def extract_text_from_pdf (pages : List String) : String :=
  pages.foldl (fun text_content page => text_content ++ (page ++ "\n")) ""

/-- The f-string prompt of the Explain Concept handler (`app2.py` line 98). -/
def explainPrompt (concept_input : String) : String :=
  "Explain the following concept in simple terms for a student, focusing on clarity and easy understanding: " ++ concept_input

/-- The Explain Concept button handler (`app2.py` lines 94-107).  Python
`if concept_input:` is the `≠ ""` test; on empty input a warning is shown
and the output slot is cleared; otherwise the input is saved to state, the
prompt is sent, and the response text (or `"Error: {e}"` on exception) is
stored in the output slot. -/
def explainButton (model : Oracle) (concept_input : String) (s : SessionState) :
    SessionState × Effects :=
  if concept_input = "" then
    ({ s with explain_output := "" },
     ⟨["Please enter a concept to explain."], [], []⟩)
  else
    let s1 := { s with explain_input := concept_input }
    let prompt := explainPrompt concept_input
    match model prompt with
    | Except.ok t => ({ s1 with explain_output := t }, ⟨[], [], [prompt]⟩)
    | Except.error e =>
        ({ s1 with explain_output := "Error: " ++ e },
         ⟨[], ["Error generating explanation: " ++ e], [prompt]⟩)

/-- The maximum payload length for Summarize (`app2.py` line 181). -/
def MAX_CHARS_FOR_GEMINI : Nat := 50000

/-- The truncation warning of the summarize handler (`app2.py` lines
185-189), with `original_length` and `MAX_CHARS_FOR_GEMINI` interpolated. -/
def truncationWarning (original_length : Nat) : String :=
  "Your input is very long (" ++ toString original_length ++ " characters). " ++
  "Summarizing the first " ++ toString MAX_CHARS_FOR_GEMINI ++ " characters to fit AI limits. " ++
  "For very long documents, consider summarizing in chunks."

/-- The f-string prompt of the summarize handler (`app2.py` line 193). -/
def summarizePrompt (content_to_summarize : String) : String :=
  "Summarize the following study notes concisely, highlighting the main points and key takeaways. Aim for a summary that captures the essence of the notes: " ++ content_to_summarize

/-- Python `not s.strip()`: `s.strip()` is empty exactly when every
character of `s` is whitespace (including the empty string). -/
def isBlank (s : String) : Bool :=
  s.data.all Char.isWhitespace

/-- First phase of the Summarize Content handler (`app2.py` lines 161-178):
choose `content_to_summarize`.  If a file is uploaded, parse it and extract
its text (saving the file to state on success; on blank extraction warn and
store an error in the output slot; on a parse exception show the error and
store it); otherwise, if the notes box is non-empty (Python truthiness),
use the pasted notes and save them to state.  Returns the chosen content,
the updated state and the effects so far. -/
def summarizeSelect (uploaded_file : Option (Except String (List String)))
    (notes_input : String) (s : SessionState) :
    String × SessionState × Effects :=
  match uploaded_file with
  | some (Except.ok pages) =>
      let content := extract_text_from_pdf pages
      let s1 := { s with uploaded_file := some pages }
      if isBlank content then
        ("", { s1 with summarize_output := "Error: Could not extract readable text from PDF." },
         ⟨["Could not extract readable text from the PDF. Please try pasting notes directly."], [], []⟩)
      else
        (content, s1, ⟨[], [], []⟩)
  | some (Except.error e) =>
      ("", { s with summarize_output := "Error reading PDF: " ++ e },
       ⟨[], ["Error reading PDF: " ++ e ++ ". Please ensure it's a valid PDF or try pasting text."], []⟩)
  | none =>
      if notes_input = "" then
        ("", s, ⟨[], [], []⟩)
      else
        (notes_input, { s with summarize_input := notes_input }, ⟨[], [], []⟩)

/-- Second phase of the Summarize Content handler (`app2.py` lines 180-203):
if the chosen content is non-empty (Python truthiness), truncate it to
`MAX_CHARS_FOR_GEMINI` characters with a warning when it is longer, send the
summarize prompt and store the response text (or `"Error: {e}"`) in the
output slot; if the content is empty, warn and clear the output slot. -/
def summarizeSend (model : Oracle) (content_to_summarize : String) (s : SessionState) :
    SessionState × Effects :=
  if content_to_summarize = "" then
    ({ s with summarize_output := "" },
     ⟨["Please paste notes or upload a PDF document to summarize."], [], []⟩)
  else
    let original_length := content_to_summarize.length
    let warn : List String :=
      if original_length > MAX_CHARS_FOR_GEMINI then [truncationWarning original_length] else []
    let content2 :=
      if original_length > MAX_CHARS_FOR_GEMINI then
        content_to_summarize.take MAX_CHARS_FOR_GEMINI
      else content_to_summarize
    let prompt := summarizePrompt content2
    match model prompt with
    | Except.ok t => ({ s with summarize_output := t }, ⟨warn, [], [prompt]⟩)
    | Except.error e =>
        ({ s with summarize_output := "Error: " ++ e },
         ⟨warn, ["Error generating summary: " ++ e], [prompt]⟩)

/-- The full Summarize Content button handler (`app2.py` lines 160-203):
content selection followed by truncation and the model call. -/
def summarizeButton (model : Oracle) (uploaded_file : Option (Except String (List String)))
    (notes_input : String) (s : SessionState) : SessionState × Effects :=
  let sel := summarizeSelect uploaded_file notes_input s
  let snd := summarizeSend model sel.1 sel.2.1
  (snd.1, Effects.comb sel.2.2 snd.2)

/-- The f-string prompt of the Generate Quiz handler (`app2.py` line 232). -/
def quizPrompt (quiz_topic_input : String) : String :=
  "Generate a short quiz (3-4 questions) with answers on the topic of '" ++ quiz_topic_input ++ "'. Include various question types like multiple-choice, true/false, and short answer. Clearly label questions and answers."

/-- The triple-quoted f-string prompt of the Generate Flashcards handler
(`app2.py` lines 248-250), including its literal newlines and indentation. -/
def flashcardPrompt (quiz_topic_input : String) : String :=
  "Generate 3-4 flashcards for studying '" ++ quiz_topic_input ++ "'. For each flashcard, provide a clear question/term on the \"front\" and its answer/definition on the \"back\". Format each flashcard clearly, for example:\n                **Flashcard 1 - Front:** [Question]\n                **Flashcard 1 - Back:** [Answer]"

/-- The Generate Quiz button handler (`app2.py` lines 228-241). -/
def quizButton (model : Oracle) (quiz_topic_input : String) (s : SessionState) :
    SessionState × Effects :=
  if quiz_topic_input = "" then
    ({ s with quiz_flashcard_output := "" },
     ⟨["Please enter a topic for the quiz."], [], []⟩)
  else
    let s1 := { s with quiz_topic_input := quiz_topic_input }
    let prompt := quizPrompt quiz_topic_input
    match model prompt with
    | Except.ok t => ({ s1 with quiz_flashcard_output := t }, ⟨[], [], [prompt]⟩)
    | Except.error e =>
        ({ s1 with quiz_flashcard_output := "Error: " ++ e },
         ⟨[], ["Error generating quiz: " ++ e], [prompt]⟩)

/-- The Generate Flashcards button handler (`app2.py` lines 244-259). -/
def flashcardButton (model : Oracle) (quiz_topic_input : String) (s : SessionState) :
    SessionState × Effects :=
  if quiz_topic_input = "" then
    ({ s with quiz_flashcard_output := "" },
     ⟨["Please enter a topic for flashcards."], [], []⟩)
  else
    let s1 := { s with quiz_topic_input := quiz_topic_input }
    let prompt := flashcardPrompt quiz_topic_input
    match model prompt with
    | Except.ok t => ({ s1 with quiz_flashcard_output := t }, ⟨[], [], [prompt]⟩)
    | Except.error e =>
        ({ s1 with quiz_flashcard_output := "Error: " ++ e },
         ⟨[], ["Error generating flashcards: " ++ e], [prompt]⟩)

/-- The Clear button of the Explain feature (`app2.py` lines 110-113). -/
def clear_explain (s : SessionState) : SessionState :=
  { s with explain_input := "", explain_output := "" }

/-- The Clear button of the Summarize feature (`app2.py` lines 154-158). -/
def clear_summarize (s : SessionState) : SessionState :=
  { s with summarize_input := "", summarize_output := "", uploaded_file := none }

/-- The Clear button of the Quiz/Flashcards feature (`app2.py` lines 262-265). -/
def clear_quiz (s : SessionState) : SessionState :=
  { s with quiz_topic_input := "", quiz_flashcard_output := "" }

/-- `display_ai_output` (`app2.py` lines 50-70): for non-empty output text
(Python truthiness) it renders the text twice, in the copyable
`st.text_area` and in the expander's `st.markdown`; for empty output it
shows only the info placeholder, modelled as `none`. -/
def display_ai_output (output_text : String) : Option (String × String) :=
  if output_text = "" then none
  else some (output_text, output_text)

/-- The extractor contract as the spec words it (section 4.1): the pages'
texts concatenated in page order, each page's text separated from the next
by a single newline.  Stated for comparison with `extract_text_from_pdf`. -/
def pagesJoinedByNewline (pages : List String) : String :=
  String.intercalate "\n" pages

/-- C1: for the Summarize feature, any non-empty content longer than 50,000
characters is truncated before sending: the payload interpolated into the
summarize prompt and sent to the model is exactly the first 50,000
characters, and the truncation warning (whose text cites the 50,000
threshold) is emitted; content of at most 50,000 characters is interpolated
unchanged and no warning is emitted. -/
theorem summarize_truncates_at_50000 (model : Oracle) (content : String)
    (s : SessionState) (h : content ≠ "") :
    (content.length > 50000 →
      (summarizeSend model content s).2.modelCalls
          = [summarizePrompt (content.take 50000)] ∧
      (summarizeSend model content s).2.warnings
          = [truncationWarning content.length]) ∧
    (content.length ≤ 50000 →
      (summarizeSend model content s).2.modelCalls = [summarizePrompt content] ∧
      (summarizeSend model content s).2.warnings = []) := by
  constructor
  · intro hlen
    have hgt : 50000 < content.length := hlen
    cases hm : model (summarizePrompt (content.take 50000)) with
    | ok t => simp [summarizeSend, if_neg h, MAX_CHARS_FOR_GEMINI, hgt, hm]
    | error e => simp [summarizeSend, if_neg h, MAX_CHARS_FOR_GEMINI, hgt, hm]
  · intro hlen
    have hle : ¬ (50000 < content.length) := by omega
    cases hm : model (summarizePrompt content) with
    | ok t => simp [summarizeSend, if_neg h, MAX_CHARS_FOR_GEMINI, hle, hm]
    | error e => simp [summarizeSend, if_neg h, MAX_CHARS_FOR_GEMINI, hle, hm]

/-- Witness for C1: the hypotheses discharged at a 50,001-character content
(the truncation branch) and at the one-character content "a" (the unchanged
branch). -/
theorem summarize_truncates_at_50000_witness :
    ((summarizeSend (fun _ => Except.ok "T") (String.mk (List.replicate 50001 'a')) initialState).2.modelCalls
        = [summarizePrompt ((String.mk (List.replicate 50001 'a')).take 50000)] ∧
     (summarizeSend (fun _ => Except.ok "T") (String.mk (List.replicate 50001 'a')) initialState).2.warnings
        = [truncationWarning (String.mk (List.replicate 50001 'a')).length]) ∧
    ((summarizeSend (fun _ => Except.ok "T") "a" initialState).2.modelCalls
        = [summarizePrompt "a"] ∧
     (summarizeSend (fun _ => Except.ok "T") "a" initialState).2.warnings = []) := by
  have hlen : (String.mk (List.replicate 50001 'a')).length = 50001 := by
    show (List.replicate 50001 'a').length = 50001
    exact List.length_replicate 50001 'a'
  have hne : String.mk (List.replicate 50001 'a') ≠ "" := by
    intro hc
    have h0 := congrArg String.length hc
    rw [hlen] at h0
    simp at h0
  constructor
  · exact (summarize_truncates_at_50000 (fun _ => Except.ok "T") _ initialState hne).1
      (by rw [hlen]; omega)
  · exact (summarize_truncates_at_50000 (fun _ => Except.ok "T") "a" initialState
      (by decide)).2 (by decide)

/-- C2 counterexample: the claim fails for whitespace-only input — pressing
Explain Concept with the single-space input " " does call the model, because
Python `if concept_input:` only rejects the empty string, not whitespace. -/
theorem whitespace_input_calls_model :
    (explainButton (fun _ => Except.ok "T") " " initialState).2.modelCalls ≠ [] := by
  decide

/-- C2 (amended): for the empty input, pressing any of the four action
buttons performs no model call and shows no error; a single warning is
emitted, the feature's output slot is cleared, and nothing else in the
session state changes.  Whitespace-only non-empty input is not rejected. -/
theorem empty_input_no_model_call (model : Oracle) (s : SessionState) :
    explainButton model "" s
      = ({ s with explain_output := "" },
         ⟨["Please enter a concept to explain."], [], []⟩) ∧
    summarizeButton model none "" s
      = ({ s with summarize_output := "" },
         ⟨["Please paste notes or upload a PDF document to summarize."], [], []⟩) ∧
    quizButton model "" s
      = ({ s with quiz_flashcard_output := "" },
         ⟨["Please enter a topic for the quiz."], [], []⟩) ∧
    flashcardButton model "" s
      = ({ s with quiz_flashcard_output := "" },
         ⟨["Please enter a topic for flashcards."], [], []⟩) := by
  refine ⟨?_, ?_, ?_, ?_⟩ <;>
    simp [explainButton, summarizeButton, summarizeSelect, summarizeSend,
      quizButton, flashcardButton, Effects.comb]

/-- C3 counterexample: on validation failure the output slot is not set to a
warning message — pressing Explain Concept with empty input emits the
warning "Please enter a concept to explain." but sets the output slot to
the empty string, which is not among the emitted warnings. -/
theorem validation_warning_not_stored :
    (explainButton (fun _ => Except.ok "T") "" initialState).2.modelCalls = [] ∧
    (explainButton (fun _ => Except.ok "T") "" initialState).2.warnings
      = ["Please enter a concept to explain."] ∧
    (explainButton (fun _ => Except.ok "T") "" initialState).1.explain_output
      ∉ (explainButton (fun _ => Except.ok "T") "" initialState).2.warnings := by
  decide

/-- C3 (amended): for every action-button press whose input validation fails
(empty required input), the feature's output slot is cleared to the empty
string, a warning is emitted, and no network call is performed. -/
theorem validation_failure_clears_output (model : Oracle) (s : SessionState) :
    ((explainButton model "" s).1.explain_output = "" ∧
     (explainButton model "" s).2.warnings ≠ [] ∧
     (explainButton model "" s).2.modelCalls = []) ∧
    ((summarizeButton model none "" s).1.summarize_output = "" ∧
     (summarizeButton model none "" s).2.warnings ≠ [] ∧
     (summarizeButton model none "" s).2.modelCalls = []) ∧
    ((quizButton model "" s).1.quiz_flashcard_output = "" ∧
     (quizButton model "" s).2.warnings ≠ [] ∧
     (quizButton model "" s).2.modelCalls = []) ∧
    ((flashcardButton model "" s).1.quiz_flashcard_output = "" ∧
     (flashcardButton model "" s).2.warnings ≠ [] ∧
     (flashcardButton model "" s).2.modelCalls = []) := by
  simp [explainButton, summarizeButton, summarizeSelect, summarizeSend,
    quizButton, flashcardButton, Effects.comb]

/-- C4: each feature's Clear button resets that feature's input and output
slots (and, for Summarize, the uploaded-file slot) to empty, and leaves
every slot of every other feature unchanged. -/
theorem clear_resets_only_own_feature (s : SessionState) :
    ((clear_explain s).explain_input = "" ∧ (clear_explain s).explain_output = "" ∧
     (clear_explain s).summarize_input = s.summarize_input ∧
     (clear_explain s).summarize_output = s.summarize_output ∧
     (clear_explain s).uploaded_file = s.uploaded_file ∧
     (clear_explain s).quiz_topic_input = s.quiz_topic_input ∧
     (clear_explain s).quiz_flashcard_output = s.quiz_flashcard_output) ∧
    ((clear_summarize s).summarize_input = "" ∧ (clear_summarize s).summarize_output = "" ∧
     (clear_summarize s).uploaded_file = none ∧
     (clear_summarize s).explain_input = s.explain_input ∧
     (clear_summarize s).explain_output = s.explain_output ∧
     (clear_summarize s).quiz_topic_input = s.quiz_topic_input ∧
     (clear_summarize s).quiz_flashcard_output = s.quiz_flashcard_output) ∧
    ((clear_quiz s).quiz_topic_input = "" ∧ (clear_quiz s).quiz_flashcard_output = "" ∧
     (clear_quiz s).explain_input = s.explain_input ∧
     (clear_quiz s).explain_output = s.explain_output ∧
     (clear_quiz s).summarize_input = s.summarize_input ∧
     (clear_quiz s).summarize_output = s.summarize_output ∧
     (clear_quiz s).uploaded_file = s.uploaded_file) := by
  simp [clear_explain, clear_summarize, clear_quiz]

/-- C5: for input "Photosynthesis" to the Explain feature, the one prompt
sent is exactly the expected template instantiation; when the model returns
text T the Explain output slot equals T; and whenever `display_ai_output`
renders some output, its copyable text area and its expander show the
identical text. -/
theorem explain_photosynthesis_end_to_end (T : String) (s : SessionState) :
    (explainButton (fun _ => Except.ok T) "Photosynthesis" s).2.modelCalls
      = ["Explain the following concept in simple terms for a student, focusing on clarity and easy understanding: Photosynthesis"] ∧
    (explainButton (fun _ => Except.ok T) "Photosynthesis" s).1.explain_output = T ∧
    (∀ a b, display_ai_output T = some (a, b) → a = T ∧ b = T) := by
  refine ⟨by simp [explainButton, explainPrompt], by simp [explainButton], ?_⟩
  intro a b hab
  by_cases hT : T = ""
  · simp [display_ai_output, hT] at hab
  · simp [display_ai_output, hT] at hab
    exact ⟨hab.1.symm, hab.2.symm⟩

/-- Witness for C5 at the concrete response "It uses light.", with the
rendering hypothesis discharged by evaluation. -/
theorem explain_photosynthesis_end_to_end_witness :
    (explainButton (fun _ => Except.ok "It uses light.") "Photosynthesis" initialState).1.explain_output
      = "It uses light." ∧
    ("It uses light." = "It uses light." ∧ "It uses light." = "It uses light.") := by
  refine ⟨(explain_photosynthesis_end_to_end "It uses light." initialState).2.1, ?_⟩
  exact (explain_photosynthesis_end_to_end "It uses light." initialState).2.2
    "It uses light." "It uses light." (by simp [display_ai_output])

/-- C6 counterexample: for a single page whose text is "a" the extractor
returns "a\n" — a trailing newline — whereas joining the pages' texts with a
newline as a separator, as the claim describes, gives "a". -/
theorem extract_text_not_separator_joined :
    extract_text_from_pdf ["a"] = "a\n" ∧
    pagesJoinedByNewline ["a"] = "a" ∧
    extract_text_from_pdf ["a"] ≠ pagesJoinedByNewline ["a"] := by
  refine ⟨rfl, rfl, ?_⟩
  decide

/-- C6 (amended): the extractor returns the pages' texts concatenated in
page order with each page's text followed by a single newline, so pages are
newline-separated but the result also ends with a trailing newline. -/
theorem extract_text_terminates_pages_with_newline (pages : List String) :
    extract_text_from_pdf pages = String.join (pages.map (fun p => p ++ "\n")) := by
  simp [extract_text_from_pdf, String.join, List.foldl_map]

/-- C7: when the uploaded PDF parses but no page yields extractable text
(the extraction result strips to ""), the summarize handler warns that no
readable text was found and performs no model call, whatever is pasted in
the notes box. -/
theorem unreadable_pdf_warns_and_skips_model (model : Oracle) (pages : List String)
    (notes_input : String) (s : SessionState)
    (h : isBlank (extract_text_from_pdf pages) = true) :
    "Could not extract readable text from the PDF. Please try pasting notes directly."
        ∈ (summarizeButton model (some (Except.ok pages)) notes_input s).2.warnings ∧
    (summarizeButton model (some (Except.ok pages)) notes_input s).2.modelCalls = [] := by
  simp [summarizeButton, summarizeSelect, summarizeSend, Effects.comb, h]

/-- Witness for C7 at a PDF with no pages, whose extraction is empty. -/
theorem unreadable_pdf_warns_and_skips_model_witness :
    (isBlank (extract_text_from_pdf ([] : List String)) = true) ∧
    ("Could not extract readable text from the PDF. Please try pasting notes directly."
        ∈ (summarizeButton (fun _ => Except.ok "T") (some (Except.ok ([] : List String))) "" initialState).2.warnings ∧
     (summarizeButton (fun _ => Except.ok "T") (some (Except.ok ([] : List String))) "" initialState).2.modelCalls = []) :=
  ⟨by decide,
   unreadable_pdf_warns_and_skips_model (fun _ => Except.ok "T") [] "" initialState (by decide)⟩

/-- C8: for every feature, when the model call raises an exception with
message e, the feature's output slot is set to "Error: " followed by e (a
string containing the message, replacing any previous output), the error is
shown to the user via st.error, and exactly one model call is made — no
retry within the request. -/
theorem model_failure_stored_and_shown (e concept topic notes : String) (s : SessionState)
    (hc : concept ≠ "") (ht : topic ≠ "") (hn : notes ≠ "") :
    ((explainButton (fun _ => Except.error e) concept s).1.explain_output = "Error: " ++ e ∧
     (explainButton (fun _ => Except.error e) concept s).2.errors
        = ["Error generating explanation: " ++ e] ∧
     (explainButton (fun _ => Except.error e) concept s).2.modelCalls.length = 1) ∧
    ((summarizeButton (fun _ => Except.error e) none notes s).1.summarize_output = "Error: " ++ e ∧
     (summarizeButton (fun _ => Except.error e) none notes s).2.errors
        = ["Error generating summary: " ++ e] ∧
     (summarizeButton (fun _ => Except.error e) none notes s).2.modelCalls.length = 1) ∧
    ((quizButton (fun _ => Except.error e) topic s).1.quiz_flashcard_output = "Error: " ++ e ∧
     (quizButton (fun _ => Except.error e) topic s).2.errors
        = ["Error generating quiz: " ++ e] ∧
     (quizButton (fun _ => Except.error e) topic s).2.modelCalls.length = 1) ∧
    ((flashcardButton (fun _ => Except.error e) topic s).1.quiz_flashcard_output = "Error: " ++ e ∧
     (flashcardButton (fun _ => Except.error e) topic s).2.errors
        = ["Error generating flashcards: " ++ e] ∧
     (flashcardButton (fun _ => Except.error e) topic s).2.modelCalls.length = 1) := by
  refine ⟨?_, ?_, ?_, ?_⟩
  · simp [explainButton, if_neg hc]
  · by_cases hlen : 50000 < notes.length <;>
      simp [summarizeButton, summarizeSelect, summarizeSend, Effects.comb,
        MAX_CHARS_FOR_GEMINI, if_neg hn, hlen]
  · simp [quizButton, if_neg ht]
  · simp [flashcardButton, if_neg ht]

/-- Witness for C8 at concrete inputs and the exception message "boom". -/
theorem model_failure_stored_and_shown_witness :
    (explainButton (fun _ => Except.error "boom") "x" initialState).1.explain_output
      = "Error: " ++ "boom" ∧
    (quizButton (fun _ => Except.error "boom") "y" initialState).2.errors
      = ["Error generating quiz: " ++ "boom"] ∧
    (summarizeButton (fun _ => Except.error "boom") none "z" initialState).2.modelCalls.length = 1 := by
  have h := model_failure_stored_and_shown "boom" "x" "y" "z" initialState
    (by decide) (by decide) (by decide)
  exact ⟨h.1.1, h.2.2.1.2.1, h.2.1.2.2⟩

/-- C9: when a PDF is uploaded (parsing and yielding readable text) and
non-empty text is also pasted in the notes box, the PDF's extracted text is
the content interpolated into the summarize prompt, the summarize input slot
is not updated from the pasted text, and the whole press behaves exactly as
if the notes box were empty. -/
theorem pdf_overrides_pasted_notes (model : Oracle) (pages : List String)
    (notes_input : String) (s : SessionState) (h1 : notes_input ≠ "")
    (h2 : isBlank (extract_text_from_pdf pages) = false) :
    (summarizeButton model (some (Except.ok pages)) notes_input s).1.summarize_input
      = s.summarize_input ∧
    (summarizeButton model (some (Except.ok pages)) notes_input s).2.modelCalls
      = [summarizePrompt
          (if 50000 < (extract_text_from_pdf pages).length then
             (extract_text_from_pdf pages).take 50000
           else extract_text_from_pdf pages)] ∧
    summarizeButton model (some (Except.ok pages)) notes_input s
      = summarizeButton model (some (Except.ok pages)) "" s := by
  have h3 : extract_text_from_pdf pages ≠ "" := by
    intro hc
    rw [hc] at h2
    simp [isBlank] at h2
  refine ⟨?_, ?_, rfl⟩ <;>
  · by_cases hlen : 50000 < (extract_text_from_pdf pages).length <;>
    · cases hm : model (summarizePrompt
          (if 50000 < (extract_text_from_pdf pages).length then
             (extract_text_from_pdf pages).take 50000
           else extract_text_from_pdf pages)) with
      | ok t => simp [summarizeButton, summarizeSelect, summarizeSend, Effects.comb,
          MAX_CHARS_FOR_GEMINI, h2, h3, hlen, hm] at hm ⊢ <;> simp_all
      | error e => simp [summarizeButton, summarizeSelect, summarizeSend, Effects.comb,
          MAX_CHARS_FOR_GEMINI, h2, h3, hlen, hm] at hm ⊢ <;> simp_all

/-- Witness for C9 at a one-page PDF with text "a" and pasted notes "x". -/
theorem pdf_overrides_pasted_notes_witness :
    (summarizeButton (fun _ => Except.ok "T") (some (Except.ok ["a"])) "x" initialState).1.summarize_input
      = initialState.summarize_input ∧
    summarizeButton (fun _ => Except.ok "T") (some (Except.ok ["a"])) "x" initialState
      = summarizeButton (fun _ => Except.ok "T") (some (Except.ok ["a"])) "" initialState := by
  have h := pdf_overrides_pasted_notes (fun _ => Except.ok "T") ["a"] "x" initialState
    (by decide) (by decide)
  exact ⟨h.1, h.2.2⟩

/-- C10: Generate Quiz and Generate Flashcards both write the model's
response into the single shared slot quiz_flashcard_output, leaving the
Explain and Summarize slots unchanged, and a successful press of either one
overwrites whatever the other produced. -/
theorem quiz_flashcards_share_output_slot (T T2 topic : String) (s : SessionState)
    (h : topic ≠ "") :
    ((quizButton (fun _ => Except.ok T) topic s).1.quiz_flashcard_output = T ∧
     (quizButton (fun _ => Except.ok T) topic s).1.explain_input = s.explain_input ∧
     (quizButton (fun _ => Except.ok T) topic s).1.explain_output = s.explain_output ∧
     (quizButton (fun _ => Except.ok T) topic s).1.summarize_input = s.summarize_input ∧
     (quizButton (fun _ => Except.ok T) topic s).1.summarize_output = s.summarize_output) ∧
    ((flashcardButton (fun _ => Except.ok T2) topic s).1.quiz_flashcard_output = T2 ∧
     (flashcardButton (fun _ => Except.ok T2) topic s).1.explain_input = s.explain_input ∧
     (flashcardButton (fun _ => Except.ok T2) topic s).1.explain_output = s.explain_output ∧
     (flashcardButton (fun _ => Except.ok T2) topic s).1.summarize_input = s.summarize_input ∧
     (flashcardButton (fun _ => Except.ok T2) topic s).1.summarize_output = s.summarize_output) ∧
    (flashcardButton (fun _ => Except.ok T2) topic
        (quizButton (fun _ => Except.ok T) topic s).1).1.quiz_flashcard_output = T2 ∧
    (quizButton (fun _ => Except.ok T) topic
        (flashcardButton (fun _ => Except.ok T2) topic s).1).1.quiz_flashcard_output = T := by
  simp [quizButton, flashcardButton, if_neg h]

/-- Witness for C10 at topic "t" with responses "q" and "f". -/
theorem quiz_flashcards_share_output_slot_witness :
    (quizButton (fun _ => Except.ok "q") "t" initialState).1.quiz_flashcard_output = "q" ∧
    (flashcardButton (fun _ => Except.ok "f") "t"
        (quizButton (fun _ => Except.ok "q") "t" initialState).1).1.quiz_flashcard_output = "f" := by
  have h := quiz_flashcards_share_output_slot "q" "f" "t" initialState (by decide)
  exact ⟨h.1.1, h.2.2.1⟩
